import Mathlib

/-!
Verification development for the DreamAnalysis repository core: the per-user
record store (server/storage.ts and the serverless api/ handlers), the bounded
signal generator (client/src/hooks/use-metrics.tsx), and the stateless JWT auth
layer (api/_lib/auth.ts).  Shallow embedding: JavaScript arrays become lists,
the in-memory maps become insertion-ordered lists (keys are fresh UUIDs, so
Map.set appends except for the settings map, where an existing id is replaced),
machine numbers become Int/Rat, nullable values become Option, and the
server-assigned timestamps become a strictly increasing logical clock.
-/

namespace DreamAnalysis

/-! ### A model of JavaScript Array.prototype.sort

The storage layer sorts with comparator functions such as
(a, b) => a.timestamp - b.timestamp.  Array.prototype.sort is a stable sort
with respect to the total preorder induced by the comparator; we model it by a
stable insertion sort parameterised by the boolean relation
le a b = (comparator a b does not demand swapping). -/

def insertLe (le : α → α → Bool) (x : α) : List α → List α
  | [] => [x]
  | y :: ys => if le x y then x :: y :: ys else y :: insertLe le x ys

def sortBy (le : α → α → Bool) : List α → List α
  | [] => []
  | x :: xs => insertLe le x (sortBy le xs)

theorem mem_insertLe (le : α → α → Bool) (x a : α) (l : List α) :
    a ∈ insertLe le x l ↔ a = x ∨ a ∈ l := by
  induction l with
  | nil => simp [insertLe]
  | cons y ys ih =>
      by_cases h : le x y
      · simp [insertLe, h]
      · simp [insertLe, h, ih]
        tauto

theorem length_insertLe (le : α → α → Bool) (x : α) (l : List α) :
    (insertLe le x l).length = l.length + 1 := by
  induction l with
  | nil => rfl
  | cons y ys ih =>
      by_cases h : le x y
      · simp [insertLe, h]
      · simp [insertLe, h, ih]

theorem mem_sortBy (le : α → α → Bool) (a : α) (l : List α) :
    a ∈ sortBy le l ↔ a ∈ l := by
  induction l with
  | nil => simp [sortBy]
  | cons x xs ih => simp [sortBy, mem_insertLe, ih]

theorem length_sortBy (le : α → α → Bool) (l : List α) :
    (sortBy le l).length = l.length := by
  induction l with
  | nil => rfl
  | cons x xs ih => simp [sortBy, length_insertLe, ih]

theorem insertLe_eq_cons (le : α → α → Bool) (x : α) (l : List α)
    (h : ∀ y ∈ l.head?, le x y = true) : insertLe le x l = x :: l := by
  cases l with
  | nil => rfl
  | cons y ys =>
      have hy : le x y = true := h y (by simp)
      simp [insertLe, hy]

/-- A list already sorted for the comparator is returned unchanged (matching
the stability of Array.prototype.sort on equal keys as well). -/
theorem sortBy_eq_self (le : α → α → Bool) (l : List α)
    (h : l.Pairwise (fun a b => le a b = true)) : sortBy le l = l := by
  induction l with
  | nil => rfl
  | cons x xs ih =>
      rw [List.pairwise_cons] at h
      rw [sortBy, ih h.2, insertLe_eq_cons]
      intro y hy
      cases xs with
      | nil => simp at hy
      | cons z zs =>
          simp only [List.head?_cons, Option.mem_def, Option.some.injEq] at hy
          exact hy ▸ h.1 z (by simp)

theorem pairwise_insertLe (le : α → α → Bool)
    (htrans : ∀ a b c, le a b = true → le b c = true → le a c = true)
    (htotal : ∀ a b, le a b = true ∨ le b a = true)
    (x : α) (l : List α) (h : l.Pairwise (fun a b => le a b = true)) :
    (insertLe le x l).Pairwise (fun a b => le a b = true) := by
  induction l with
  | nil => simp [insertLe]
  | cons y ys ih =>
      rw [List.pairwise_cons] at h
      by_cases hxy : le x y
      · rw [insertLe, if_pos hxy, List.pairwise_cons]
        refine ⟨?_, List.pairwise_cons.2 h⟩
        intro b hb
        rcases List.mem_cons.1 hb with hb | hb
        · exact hb ▸ hxy
        · exact htrans x y b hxy (h.1 b hb)
      · rw [insertLe, if_neg hxy, List.pairwise_cons]
        refine ⟨?_, ih h.2⟩
        intro b hb
        rw [mem_insertLe] at hb
        rcases hb with hb | hb
        · subst hb
          rcases htotal y b with hyb | hby
          · exact hyb
          · exact absurd hby (by simpa using hxy)
        · exact h.1 b hb

theorem pairwise_sortBy (le : α → α → Bool)
    (htrans : ∀ a b c, le a b = true → le b c = true → le a c = true)
    (htotal : ∀ a b, le a b = true ∨ le b a = true)
    (l : List α) : (sortBy le l).Pairwise (fun a b => le a b = true) := by
  induction l with
  | nil => simp [sortBy]
  | cons x xs ih => exact pairwise_insertLe le htrans htotal x (sortBy le xs) ih

/-- Model of the JavaScript negative-index slice used by getAiChats:
xs.slice(-n).  For n = 0 JavaScript reads slice(0) and keeps the whole array;
for n > 0 it keeps the last min n (length xs) elements. -/
def sliceLast (l : List α) (n : Nat) : List α :=
  if n = 0 then l else l.drop (l.length - n)

/-! ### JavaScript falsiness coercions used by the storage layer

The MemStorage create methods write field || null (and field || [] for the
dream lists), which coerces the falsy values 0 and the empty string to null as
well as absent values. -/

def orNullString (x : Option String) : Option String :=
  match x with
  | some s => if s = "" then none else some s
  | none => none

def orNullInt (x : Option Int) : Option Int :=
  match x with
  | some v => if v = 0 then none else some v
  | none => none

def orNullRat (x : Option Rat) : Option Rat :=
  match x with
  | some v => if v = 0 then none else some v
  | none => none

/-! ### Data model (shared/schema.ts inferred row types)

Numbers: integer columns become Int, the real column sleepDuration becomes
Rat; nullable columns become Option; jsonb mappings become association lists.
Row ids are drawn from a fresh-id counter standing for randomUUID, and the
server-assigned timestamp columns are drawn from a strictly increasing logical
clock standing for new Date() / defaultNow(). -/

structure HealthMetrics where
  id : Nat
  userId : Option String
  heartRate : Int
  stressLevel : Int
  sleepQuality : Int
  neuralActivity : Int
  dailySteps : Option Int
  sleepDuration : Option Rat
  timestamp : Nat
  deriving Repr, DecidableEq

structure InsertHealthMetrics where
  userId : Option String := none
  heartRate : Int
  stressLevel : Int
  sleepQuality : Int
  neuralActivity : Int
  dailySteps : Option Int := none
  sleepDuration : Option Rat := none
  deriving Repr, DecidableEq

structure DreamAnalysisRow where
  id : Nat
  userId : Option String
  dreamText : String
  symbols : List String
  emotions : List (String × Rat)
  aiAnalysis : Option String
  timestamp : Nat
  deriving Repr, DecidableEq

structure InsertDreamAnalysis where
  userId : Option String := none
  dreamText : String
  symbols : Option (List String) := none
  emotions : Option (List (String × Rat)) := none
  aiAnalysis : Option String := none
  deriving Repr, DecidableEq

structure AiChat where
  id : Nat
  userId : Option String
  message : String
  isUser : Bool
  timestamp : Nat
  deriving Repr, DecidableEq

structure InsertAiChat where
  userId : Option String := none
  message : String
  isUser : Bool
  deriving Repr, DecidableEq

structure UserSettings where
  id : Nat
  userId : Option String
  theme : Option String
  electrodeCount : Option Int
  samplingRate : Option Int
  alertThresholds : Option (List (String × Rat))
  animationsEnabled : Option Bool
  deriving Repr, DecidableEq

/-- A Partial of InsertUserSettings: the outer Option records whether the key
is present in the JavaScript object at all, the inner Option records a null
value for the (nullable) column. -/
structure SettingsPatch where
  userId : Option (Option String) := none
  theme : Option (Option String) := none
  electrodeCount : Option (Option Int) := none
  samplingRate : Option (Option Int) := none
  alertThresholds : Option (Option (List (String × Rat))) := none
  animationsEnabled : Option (Option Bool) := none
  deriving Repr, DecidableEq

/-- The MemStorage collections.  The JavaScript Maps iterate in insertion
order and every create call uses a fresh randomUUID key, so the three
append-only collections are faithfully lists in insertion order. -/
structure Store where
  healthMetrics : List HealthMetrics := []
  dreamAnalyses : List DreamAnalysisRow := []
  aiChats : List AiChat := []
  userSettings : List UserSettings := []
  nextId : Nat := 0
  clock : Nat := 0
  deriving Repr, DecidableEq

def emptyStore : Store := {}

/-! ### MemStorage operations (server/storage.ts) -/

def createHealthMetrics (st : Store) (ins : InsertHealthMetrics) :
    Store × HealthMetrics :=
  let m : HealthMetrics :=
    { id := st.nextId
      userId := orNullString ins.userId
      heartRate := ins.heartRate
      stressLevel := ins.stressLevel
      sleepQuality := ins.sleepQuality
      neuralActivity := ins.neuralActivity
      dailySteps := orNullInt ins.dailySteps
      sleepDuration := orNullRat ins.sleepDuration
      timestamp := st.clock }
  ({ st with healthMetrics := st.healthMetrics ++ [m],
             nextId := st.nextId + 1, clock := st.clock + 1 }, m)

def hmDesc (a b : HealthMetrics) : Bool := b.timestamp ≤ a.timestamp

def getHealthMetrics (st : Store) (userId : String) (limit : Nat := 50) :
    List HealthMetrics :=
  ((sortBy hmDesc (st.healthMetrics.filter
      (fun m => m.userId = some userId)))).take limit

def createDreamAnalysis (st : Store) (ins : InsertDreamAnalysis) :
    Store × DreamAnalysisRow :=
  let a : DreamAnalysisRow :=
    { id := st.nextId
      userId := orNullString ins.userId
      dreamText := ins.dreamText
      symbols := ins.symbols.getD []
      emotions := ins.emotions.getD []
      aiAnalysis := orNullString ins.aiAnalysis
      timestamp := st.clock }
  ({ st with dreamAnalyses := st.dreamAnalyses ++ [a],
             nextId := st.nextId + 1, clock := st.clock + 1 }, a)

def daDesc (a b : DreamAnalysisRow) : Bool := b.timestamp ≤ a.timestamp

def getDreamAnalyses (st : Store) (userId : String) (limit : Nat := 20) :
    List DreamAnalysisRow :=
  ((sortBy daDesc (st.dreamAnalyses.filter
      (fun a => a.userId = some userId)))).take limit

def createAiChat (st : Store) (ins : InsertAiChat) : Store × AiChat :=
  let c : AiChat :=
    { id := st.nextId
      userId := orNullString ins.userId
      message := ins.message
      isUser := ins.isUser
      timestamp := st.clock }
  ({ st with aiChats := st.aiChats ++ [c],
             nextId := st.nextId + 1, clock := st.clock + 1 }, c)

def chatAsc (a b : AiChat) : Bool := a.timestamp ≤ b.timestamp

/-- getAiChats: filter to the user, sort ascending by timestamp, then
slice(-limit), keeping the tail. -/
def getAiChats (st : Store) (userId : String) (limit : Nat := 50) :
    List AiChat :=
  sliceLast (sortBy chatAsc (st.aiChats.filter
      (fun c => c.userId = some userId))) limit

def getUserSettings (st : Store) (userId : String) : Option UserSettings :=
  st.userSettings.find? (fun s => s.userId = some userId)

/-- The default-valued record literal built by updateUserSettings before the
two spreads are applied. -/
def defaultSettings (id : Nat) (userId : String) : UserSettings :=
  { id := id
    userId := some userId
    theme := some "dark"
    electrodeCount := some 64
    samplingRate := some 500
    alertThresholds := some []
    animationsEnabled := some true }

/-- Spread of the parsed partial object over a full settings record: a key
present in the partial wins, field by field (the partial cannot carry id). -/
def applyPatch (s : UserSettings) (p : SettingsPatch) : UserSettings :=
  { id := s.id
    userId := p.userId.getD s.userId
    theme := p.theme.getD s.theme
    electrodeCount := p.electrodeCount.getD s.electrodeCount
    samplingRate := p.samplingRate.getD s.samplingRate
    alertThresholds := p.alertThresholds.getD s.alertThresholds
    animationsEnabled := p.animationsEnabled.getD s.animationsEnabled }

/-- updateUserSettings: the record literal lists exactly the fields of a
UserSettings row, so spreading a full existing record over it replaces it
entirely; the partial is then spread on top.  Map.set with the id of the
existing record replaces it in place, a fresh id appends. -/
def updateUserSettings (st : Store) (userId : String) (p : SettingsPatch) :
    Store × UserSettings :=
  let existing := getUserSettings st userId
  let id := match existing with
    | some e => e.id
    | none => st.nextId
  let settings := applyPatch (existing.getD (defaultSettings id userId)) p
  let newColl :=
    if st.userSettings.any (fun s => s.id = id) then
      st.userSettings.map (fun s => if s.id = id then settings else s)
    else
      st.userSettings ++ [settings]
  ({ st with userSettings := newColl, nextId := st.nextId + 1 }, settings)

/-! ### Environment and lazy configuration getters (api/_lib/db.ts, auth.ts) -/

structure Env where
  jwtSecret : Option String := none
  databaseUrl : Option String := none
  deriving Repr, DecidableEq

/-- getJWTSecret: throws when JWT_SECRET is unset; modelled as Except. -/
def getJWTSecret (env : Env) : Except String String :=
  match env.jwtSecret with
  | some s => Except.ok s
  | none => Except.error "JWT_SECRET environment variable is not set. This is required for secure authentication."

/-- getDb: throws when DATABASE_URL is unset, otherwise yields the database
handle (the row contents themselves are passed to the handlers separately). -/
def getDb (env : Env) : Except String Unit :=
  match env.databaseUrl with
  | some _ => Except.ok ()
  | none => Except.error "DATABASE_URL environment variable is not set"

/-- Module initialization of the db and auth modules.  The source performs no
environment access at module scope: db.ts only declares the null cachedDb and
auth.ts only declares functions, so loading the modules succeeds under every
environment; the two getters above run lazily inside request handling. -/
def moduleStartup (_env : Env) : Except String Unit := Except.ok ()

/-! ### JWT auth layer (api/_lib/auth.ts)

The jsonwebtoken library is external; a signed token is modelled as its
embedded payload and expiry plus the secret it was signed with (standing for
the signature), with jwt.sign and jwt.verify as the usual sign/check pair:
verify throws on a signature mismatch or once now reaches exp. -/

structure JWTPayload where
  userId : String
  username : String
  deriving Repr, DecidableEq

structure Token where
  payload : JWTPayload
  signedWith : String
  exp : Nat
  deriving Repr, DecidableEq

/-- JWT_EXPIRES_IN = 7d, in seconds. -/
def jwtExpiresInSeconds : Nat := 7 * 24 * 60 * 60

def jwtSign (payload : JWTPayload) (secret : String) (now : Nat) : Token :=
  { payload := payload, signedWith := secret, exp := now + jwtExpiresInSeconds }

def jwtVerify (tok : Token) (secret : String) (now : Nat) :
    Except String JWTPayload :=
  if tok.signedWith ≠ secret then Except.error "invalid signature"
  else if tok.exp ≤ now then Except.error "jwt expired"
  else Except.ok tok.payload

def generateToken (env : Env) (p : JWTPayload) (now : Nat) :
    Except String Token :=
  match getJWTSecret env with
  | Except.error e => Except.error e
  | Except.ok s => Except.ok (jwtSign p s now)

/-- verifyToken wraps jwt.verify in try/catch and returns null on any throw,
including the throw from getJWTSecret itself. -/
def verifyToken (env : Env) (tok : Token) (now : Nat) : Option JWTPayload :=
  match getJWTSecret env with
  | Except.error _ => none
  | Except.ok s =>
      match jwtVerify tok s now with
      | Except.error _ => none
      | Except.ok p => some p

/-- An inbound request as the auth layer sees it: an optional bearer token
from the Authorization header and the parsed cookie pairs. -/
structure Request where
  bearerToken : Option Token := none
  cookieHeader : Option (List (String × Token)) := none
  deriving Repr, DecidableEq

/-- getAuthToken: Authorization Bearer value first, else the auth_token cookie
(the reduce-built cookie object keeps the last occurrence of a repeated key).
-/
def getAuthToken (req : Request) : Option Token :=
  match req.bearerToken with
  | some t => some t
  | none =>
      match req.cookieHeader with
      | some cookies =>
          (cookies.reverse.find? (fun kv => kv.1 = "auth_token")).map (fun kv => kv.2)
      | none => none

inductive AuthResult where
  | unauthorized (message : String)
  | ok (payload : JWTPayload)
  deriving Repr, DecidableEq

def requireAuth (env : Env) (req : Request) (now : Nat) : AuthResult :=
  match getAuthToken req with
  | none => AuthResult.unauthorized "No authentication token provided"
  | some tok =>
      match verifyToken env tok now with
      | none => AuthResult.unauthorized "Invalid or expired token"
      | some p => AuthResult.ok p

/-! ### HTTP responses (api/_lib/response.ts) -/

inductive ApiResponse (α : Type) where
  | ok (status : Nat) (data : α)
  | err (status : Nat) (message : String)
  | notAllowed (allow : List String)
  deriving Repr, DecidableEq

/-! ### CSV export (api/export/[userId].ts and the legacy Express route)

Both exports map each record to an object literal with the same seven keys, so
Object.keys of the first record is this fixed list. -/

def csvFieldNames : List String :=
  ["timestamp", "heartRate", "stressLevel", "sleepQuality", "neuralActivity",
   "dailySteps", "sleepDuration"]

def showOptInt : Option Int → String
  | some v => toString v
  | none => ""

def showOptRat : Option Rat → String
  | some v => toString v
  | none => ""

def csvRow (m : HealthMetrics) : String :=
  String.intercalate "," [toString m.timestamp, toString m.heartRate,
    toString m.stressLevel, toString m.sleepQuality,
    toString m.neuralActivity, showOptInt m.dailySteps,
    showOptRat m.sleepDuration]

/-- The record list fetched by the serverless export handler: all of the
rows of the user, descending by timestamp, with no limit clause. -/
def exportMetricsServerless (store : Store) (userId : String) :
    List HealthMetrics :=
  sortBy hmDesc (store.healthMetrics.filter (fun m => m.userId = some userId))

/-- Serverless export handler (api/export/[userId].ts): getDb runs inside the
try block, an empty result set is answered with the explicit no-data body,
otherwise the header line and one line per record are joined. -/
def exportHandlerServerless (env : Env) (store : Store) (userId : String) :
    ApiResponse String :=
  match getDb env with
  | Except.error _ => ApiResponse.err 500 "Failed to export data"
  | Except.ok _ =>
      let csvData := exportMetricsServerless store userId
      if csvData.length = 0 then ApiResponse.ok 200 "No data available"
      else
        let csvHeader := String.intercalate "," csvFieldNames
        let csvRows := csvData.map csvRow
        ApiResponse.ok 200 (String.intercalate "\n" (csvHeader :: csvRows))

/-- The record list fetched by the legacy Express export route:
storage.getHealthMetrics with its default limit of 50. -/
def exportMetricsRoute (store : Store) (userId : String) :
    List HealthMetrics :=
  getHealthMetrics store userId 50

/-- Legacy Express export route (GET /api/export/:userId in routes.ts): no
empty-result branch; Object.keys(csvData[0] || empty object) yields an empty
header when there are no rows, and the body is always header :: rows joined
with newlines.  The dream analyses are also fetched but never used. -/
def exportRouteExpress (store : Store) (userId : String) :
    ApiResponse String :=
  let csvData := exportMetricsRoute store userId
  let csvHeader := String.intercalate ","
      (if csvData.isEmpty then [] else csvFieldNames)
  let csvRows := csvData.map csvRow
  ApiResponse.ok 200 (String.intercalate "\n" (csvHeader :: csvRows))

/-! ### The write routes that call the external interpretation collaborator

The OpenAI collaborator is out of scope, so each handler takes its outcome as
a parameter: either the call throws (failure) or it yields the content string
of the first choice (null possible).  The drizzle tables mirror the MemStorage
contract, so the row inserts are the create operations on Store. -/

inductive AiOutcome where
  | failure
  | success (content : Option String)
  deriving Repr, DecidableEq

/-- POST /api/ai-chat (api/ai-chat/index.ts): falsy guard on message and
userId, then the user message is inserted, then the collaborator is called;
any throw after that point is caught and answered with a 500, leaving the
already-inserted user message in place. -/
def aiChatPost (env : Env) (store : Store) (message userId : Option String)
    (ai : AiOutcome) : Store × ApiResponse AiChat :=
  match orNullString message, orNullString userId with
  | some msg, some uid =>
      (match getDb env with
       | Except.error _ =>
           (store, ApiResponse.err 500 "Failed to process chat message")
       | Except.ok _ =>
           let st1 := (createAiChat store
               { userId := some uid, message := msg, isUser := true }).1
           match ai with
           | AiOutcome.failure =>
               (st1, ApiResponse.err 500 "Failed to process chat message")
           | AiOutcome.success content =>
               let aiResponse := match orNullString content with
                 | some s => s
                 | none => "I\x27m here to help you with your wellness journey."
               let r := createAiChat st1
                   { userId := some uid, message := aiResponse, isUser := false }
               (r.1, ApiResponse.ok 201 r.2))
  | _, _ => (store, ApiResponse.err 400 "Missing message or userId")

/-- The structured interpretation parsed from the collaborator output on the
dream route; each field may be absent from the parsed JSON. -/
structure DreamAiResult where
  symbols : Option (List String) := none
  emotions : Option (List (String × Rat)) := none
  analysis : Option String := none
  deriving Repr, DecidableEq

inductive DreamAiOutcome where
  | failure
  | success (result : DreamAiResult)
  deriving Repr, DecidableEq

/-- POST /api/dream-analysis (api/dream-analysis/index.ts): falsy guard, then
the collaborator runs first and the record is only inserted after it
succeeds; a throw is caught and answered with a 500 with nothing persisted. -/
def dreamPost (env : Env) (store : Store) (dreamText userId : Option String)
    (ai : DreamAiOutcome) : Store × ApiResponse DreamAnalysisRow :=
  match orNullString dreamText, orNullString userId with
  | some text, some uid =>
      (match ai with
       | DreamAiOutcome.failure =>
           (store, ApiResponse.err 500 "Failed to analyze dream")
       | DreamAiOutcome.success r =>
           match getDb env with
           | Except.error _ =>
               (store, ApiResponse.err 500 "Failed to analyze dream")
           | Except.ok _ =>
               let ins : InsertDreamAnalysis :=
                 { userId := some uid
                   dreamText := text
                   symbols := some (r.symbols.getD [])
                   emotions := some (r.emotions.getD [])
                   aiAnalysis := some (r.analysis.getD "") }
               let res := createDreamAnalysis store ins
               (res.1, ApiResponse.ok 201 res.2))
  | _, _ => (store, ApiResponse.err 400 "Missing dreamText or userId")

/-! ### Signal generator (client/src/hooks/use-metrics.tsx)

The per-tick state update of updateMetrics.  Each Math.random() draw is an
oracle input in [0, 1); each Math.sin(...) value is an oracle input in
[-1, 1] (the argument is a time-derived phase, out of scope); both are
rational stand-ins for the IEEE doubles.  Math.floor is Int.floor and
Math.max/Math.min the usual lattice operations. -/

structure MetricsState where
  heartRate : Int
  stressLevel : Int
  sleepQuality : Int
  neuralActivity : Int
  dailySteps : Int
  sleepDuration : Rat
  deriving Repr, DecidableEq

/-- useState initial value of currentMetrics. -/
def initialMetrics : MetricsState :=
  { heartRate := 72, stressLevel := 34, sleepQuality := 87,
    neuralActivity := 92, dailySteps := 8247, sleepDuration := 738 / 100 }

structure EEGState where
  alphaWaves : List Rat
  betaWaves : List Rat
  deriving Repr, DecidableEq

/-- One tick worth of oracle draws: the five Math.random() calls of the
scalar update, and the sine value and Math.random() call of each waveform
append. -/
structure TickDraws where
  rHeart : Rat := 0
  rStress : Rat := 0
  rSleep : Rat := 0
  rNeural : Rat := 0
  rSteps : Rat := 0
  sinAlpha : Rat := 0
  rAlpha : Rat := 0
  sinBeta : Rat := 0
  rBeta : Rat := 0
  deriving Repr, DecidableEq

def unitIv (q : Rat) : Prop := 0 ≤ q ∧ q < 1

def sinIv (q : Rat) : Prop := -1 ≤ q ∧ q ≤ 1

def ValidDraws (d : TickDraws) : Prop :=
  unitIv d.rHeart ∧ unitIv d.rStress ∧ unitIv d.rSleep ∧ unitIv d.rNeural ∧
  unitIv d.rSteps ∧ sinIv d.sinAlpha ∧ unitIv d.rAlpha ∧ sinIv d.sinBeta ∧
  unitIv d.rBeta

instance (d : TickDraws) : Decidable (ValidDraws d) := by
  unfold ValidDraws unitIv sinIv
  infer_instance

/-- Math.max(lo, Math.min(hi, x)). -/
def jsClamp (lo hi x : Int) : Int := max lo (min hi x)

def tickScalars (m : MetricsState) (d : TickDraws) : MetricsState :=
  { heartRate := jsClamp 60 100 (m.heartRate + ⌊d.rHeart * 6⌋ - 3)
    stressLevel := jsClamp 0 100 (m.stressLevel + ⌊d.rStress * 10⌋ - 5)
    sleepQuality := jsClamp 0 100 (m.sleepQuality + ⌊d.rSleep * 6⌋ - 3)
    neuralActivity := jsClamp 0 100 (m.neuralActivity + ⌊d.rNeural * 8⌋ - 4)
    dailySteps := if m.dailySteps ≠ 0 then m.dailySteps + ⌊d.rSteps * 50⌋
                  else 8247
    sleepDuration := m.sleepDuration }

def alphaSample (sinVal noise : Rat) : Rat := sinVal * 50 + noise * 20

def betaSample (sinVal noise : Rat) : Rat := sinVal * 30 + noise * 15

/-- The waveform update: drop the oldest sample (slice(1)) and append the
fresh one. -/
def tickEEG (e : EEGState) (d : TickDraws) : EEGState :=
  { alphaWaves := e.alphaWaves.drop 1 ++ [alphaSample d.sinAlpha d.rAlpha]
    betaWaves := e.betaWaves.drop 1 ++ [betaSample d.sinBeta d.rBeta] }

structure SimState where
  metrics : MetricsState
  eeg : EEGState
  deriving Repr, DecidableEq

def tickSim (s : SimState) (d : TickDraws) : SimState :=
  { metrics := tickScalars s.metrics d, eeg := tickEEG s.eeg d }

def runSim (init : SimState) (draws : Nat → TickDraws) : Nat → SimState
  | 0 => init
  | n + 1 => tickSim (runSim init draws n) (draws n)

/-- One entry of the useState initial waveform buffers: a sine value and a
noise draw per element. -/
structure InitDraw where
  sinVal : Rat := 0
  noise : Rat := 0
  deriving Repr, DecidableEq

def ValidInitDraw (d : InitDraw) : Prop := sinIv d.sinVal ∧ unitIv d.noise

instance (d : InitDraw) : Decidable (ValidInitDraw d) := by
  unfold ValidInitDraw unitIv sinIv
  infer_instance

/-- The useState initial SimState, with the two 50-element buffers generated
from per-element draws. -/
def initialSim (alphaInit betaInit : List InitDraw) : SimState :=
  { metrics := initialMetrics
    eeg := { alphaWaves := alphaInit.map (fun d => alphaSample d.sinVal d.noise)
             betaWaves := betaInit.map (fun d => betaSample d.sinVal d.noise) } }

/-! ### Store invariants -/

/-- Chats sit in the collection in insertion order with strictly increasing
server-assigned timestamps, all below the clock. -/
def ChatClockInv (st : Store) : Prop :=
  st.aiChats.Pairwise (fun a b => a.timestamp < b.timestamp) ∧
  ∀ c ∈ st.aiChats, c.timestamp < st.clock

theorem chatClockInv_empty : ChatClockInv emptyStore := by
  constructor
  · simp [emptyStore]
  · intro c hc
    simp [emptyStore] at hc

theorem chatClockInv_create (st : Store) (ins : InsertAiChat)
    (h : ChatClockInv st) : ChatClockInv (createAiChat st ins).1 := by
  obtain ⟨hp, hc⟩ := h
  constructor
  · simp only [createAiChat, List.pairwise_append]
    refine ⟨hp, List.pairwise_singleton _ _, ?_⟩
    intro a ha b hb
    simp only [List.mem_singleton] at hb
    subst hb
    exact hc a ha
  · intro c hmem
    simp only [createAiChat, List.mem_append, List.mem_singleton] at hmem
    rcases hmem with hmem | hmem
    · exact Nat.lt_succ_of_lt (hc c hmem)
    · subst hmem
      exact Nat.lt_succ_self _

def applyChatInserts (inss : List InsertAiChat) : Store :=
  inss.foldl (fun st ins => (createAiChat st ins).1) emptyStore

theorem chatClockInv_foldl (inss : List InsertAiChat) (st : Store)
    (h : ChatClockInv st) :
    ChatClockInv (inss.foldl (fun s i => (createAiChat s i).1) st) := by
  induction inss generalizing st with
  | nil => exact h
  | cons i is ih => exact ih _ (chatClockInv_create st i h)

theorem chatClockInv_applyChatInserts (inss : List InsertAiChat) :
    ChatClockInv (applyChatInserts inss) :=
  chatClockInv_foldl inss emptyStore chatClockInv_empty

/-- C1: For every user and every sequence of inserted chat messages,
listChatMessages (getAiChats; default limit 50, here any positive limit)
returns the messages stored for that user sorted ascending by timestamp and
tail-truncated to the most recent limit entries: it equals the last limit
elements of the insertion-ordered per-user message list (which carries
ascending server timestamps), it keeps ascending order, and its length is
min limit (number of the messages of the user). -/
theorem listChatMessages_tail_semantics (inss : List InsertAiChat)
    (uid : String) (limit : Nat) (hlim : 0 < limit) :
    getAiChats (applyChatInserts inss) uid limit =
      ((applyChatInserts inss).aiChats.filter
          (fun c => c.userId = some uid)).drop
        (((applyChatInserts inss).aiChats.filter
            (fun c => c.userId = some uid)).length - limit) ∧
    (getAiChats (applyChatInserts inss) uid limit).Pairwise
      (fun a b => a.timestamp ≤ b.timestamp) ∧
    (getAiChats (applyChatInserts inss) uid limit).length =
      min limit ((applyChatInserts inss).aiChats.filter
          (fun c => c.userId = some uid)).length := by
  have hinv := chatClockInv_applyChatInserts inss
  have hpair : ((applyChatInserts inss).aiChats.filter
      (fun c => c.userId = some uid)).Pairwise
      (fun a b => a.timestamp < b.timestamp) :=
    List.Pairwise.sublist (List.filter_sublist _) hinv.1
  have hsorted : ((applyChatInserts inss).aiChats.filter
      (fun c => c.userId = some uid)).Pairwise
      (fun a b => chatAsc a b = true) := by
    refine hpair.imp ?_
    intro a b hab
    exact decide_eq_true (Nat.le_of_lt hab)
  have hsort_eq : sortBy chatAsc ((applyChatInserts inss).aiChats.filter
      (fun c => c.userId = some uid)) =
      (applyChatInserts inss).aiChats.filter (fun c => c.userId = some uid) :=
    sortBy_eq_self chatAsc _ hsorted
  have hne : limit ≠ 0 := Nat.pos_iff_ne_zero.mp hlim
  have heq : getAiChats (applyChatInserts inss) uid limit =
      ((applyChatInserts inss).aiChats.filter
          (fun c => c.userId = some uid)).drop
        (((applyChatInserts inss).aiChats.filter
            (fun c => c.userId = some uid)).length - limit) := by
    rw [getAiChats, hsort_eq, sliceLast, if_neg hne]
  refine ⟨heq, ?_, ?_⟩
  · rw [heq]
    have hle : ((applyChatInserts inss).aiChats.filter
        (fun c => c.userId = some uid)).Pairwise
        (fun a b => a.timestamp ≤ b.timestamp) :=
      hpair.imp (fun hab => Nat.le_of_lt hab)
    exact List.Pairwise.sublist (List.drop_sublist _ _) hle
  · rw [heq, List.length_drop]
    omega

def demoChatInserts : List InsertAiChat :=
  [{ userId := some "u1", message := "hello", isUser := true },
   { userId := some "u2", message := "other", isUser := true },
   { userId := some "u1", message := "how are you", isUser := false },
   { userId := some "u1", message := "fine", isUser := true }]

/-- Witness for C1 at a concrete insert sequence, user and limit. -/
theorem listChatMessages_tail_semantics_witness :
    0 < 2 ∧
    (getAiChats (applyChatInserts demoChatInserts) "u1" 2 =
      ((applyChatInserts demoChatInserts).aiChats.filter
          (fun c => c.userId = some "u1")).drop
        (((applyChatInserts demoChatInserts).aiChats.filter
            (fun c => c.userId = some "u1")).length - 2) ∧
    (getAiChats (applyChatInserts demoChatInserts) "u1" 2).Pairwise
      (fun a b => a.timestamp ≤ b.timestamp) ∧
    (getAiChats (applyChatInserts demoChatInserts) "u1" 2).length =
      min 2 ((applyChatInserts demoChatInserts).aiChats.filter
          (fun c => c.userId = some "u1")).length) :=
  ⟨by decide, listChatMessages_tail_semantics demoChatInserts "u1" 2 (by decide)⟩

/-- The merge rule as the specification words it, per field: the value from
the partial when the key is present there, otherwise the stored value when a
settings record existed, otherwise the built-in default. -/
def threeWayField (fromPatch : Option β) (fromExisting : Option β)
    (dflt : β) : β :=
  fromPatch.getD (fromExisting.getD dflt)

/-- Settings ids in the collection stay below the fresh-id counter; this is
how randomUUID freshness appears in the model. -/
def SettingsIdsFresh (st : Store) : Prop :=
  ∀ s ∈ st.userSettings, s.id < st.nextId

/-- C2: upsertSettings (updateUserSettings) returns and stores the record
obtained by the three-way merge with precedence partial over existing over
the built-in defaults theme dark, electrodeCount 64, samplingRate 500,
alertThresholds empty, animationsEnabled true, for every field; a new
settings record is created when none existed, and the operation is total so
it never fails on a missing prior record. -/
theorem upsertSettings_three_way_merge (st : Store) (uid : String)
    (p : SettingsPatch) (hfresh : SettingsIdsFresh st) :
    (updateUserSettings st uid p).2.theme =
      threeWayField p.theme ((getUserSettings st uid).map (fun e => e.theme))
        (some "dark") ∧
    (updateUserSettings st uid p).2.electrodeCount =
      threeWayField p.electrodeCount
        ((getUserSettings st uid).map (fun e => e.electrodeCount)) (some 64) ∧
    (updateUserSettings st uid p).2.samplingRate =
      threeWayField p.samplingRate
        ((getUserSettings st uid).map (fun e => e.samplingRate)) (some 500) ∧
    (updateUserSettings st uid p).2.alertThresholds =
      threeWayField p.alertThresholds
        ((getUserSettings st uid).map (fun e => e.alertThresholds))
        (some []) ∧
    (updateUserSettings st uid p).2.animationsEnabled =
      threeWayField p.animationsEnabled
        ((getUserSettings st uid).map (fun e => e.animationsEnabled))
        (some true) ∧
    (updateUserSettings st uid p).2 ∈
      (updateUserSettings st uid p).1.userSettings ∧
    (getUserSettings st uid = none →
      (updateUserSettings st uid p).1.userSettings.length =
        st.userSettings.length + 1) := by
  cases hex : getUserSettings st uid with
  | none =>
      have hany : st.userSettings.any
          (fun s => s.id = st.nextId) = false := by
        rw [List.any_eq_false]
        intro s hs
        have := hfresh s hs
        simp only [decide_eq_true_eq]
        omega
      refine ⟨?_, ?_, ?_, ?_, ?_, ?_, ?_⟩ <;>
        simp [updateUserSettings, hex, hany, applyPatch, defaultSettings,
          threeWayField]
  | some e =>
      have he_mem : e ∈ st.userSettings := List.mem_of_find?_eq_some hex
      have hany : st.userSettings.any (fun s => s.id = e.id) = true := by
        rw [List.any_eq_true]
        exact ⟨e, he_mem, by simp⟩
      refine ⟨?_, ?_, ?_, ?_, ?_, ?_, ?_⟩
      · simp [updateUserSettings, hex, applyPatch, threeWayField]
      · simp [updateUserSettings, hex, applyPatch, threeWayField]
      · simp [updateUserSettings, hex, applyPatch, threeWayField]
      · simp [updateUserSettings, hex, applyPatch, threeWayField]
      · simp [updateUserSettings, hex, applyPatch, threeWayField]
      · simp only [updateUserSettings, hex, hany, if_true]
        exact List.mem_map.2 ⟨e, he_mem, by simp⟩
      · intro h
        exact Option.noConfusion h

def demoPatch : SettingsPatch :=
  { electrodeCount := some (some 128) }

/-- Witness for C2 on the empty store: the merge falls back to the defaults
except for the patched electrode count, and a record is created. -/
theorem upsertSettings_three_way_merge_witness :
    SettingsIdsFresh emptyStore ∧
    ((updateUserSettings emptyStore "u1" demoPatch).2.theme =
      threeWayField demoPatch.theme
        ((getUserSettings emptyStore "u1").map (fun e => e.theme))
        (some "dark") ∧
    (updateUserSettings emptyStore "u1" demoPatch).2.electrodeCount =
      threeWayField demoPatch.electrodeCount
        ((getUserSettings emptyStore "u1").map (fun e => e.electrodeCount))
        (some 64) ∧
    (updateUserSettings emptyStore "u1" demoPatch).2.samplingRate =
      threeWayField demoPatch.samplingRate
        ((getUserSettings emptyStore "u1").map (fun e => e.samplingRate))
        (some 500) ∧
    (updateUserSettings emptyStore "u1" demoPatch).2.alertThresholds =
      threeWayField demoPatch.alertThresholds
        ((getUserSettings emptyStore "u1").map (fun e => e.alertThresholds))
        (some []) ∧
    (updateUserSettings emptyStore "u1" demoPatch).2.animationsEnabled =
      threeWayField demoPatch.animationsEnabled
        ((getUserSettings emptyStore "u1").map (fun e => e.animationsEnabled))
        (some true) ∧
    (updateUserSettings emptyStore "u1" demoPatch).2 ∈
      (updateUserSettings emptyStore "u1" demoPatch).1.userSettings ∧
    (getUserSettings emptyStore "u1" = none →
      (updateUserSettings emptyStore "u1" demoPatch).1.userSettings.length =
        emptyStore.userSettings.length + 1)) :=
  ⟨by intro s hs; simp [emptyStore] at hs,
   upsertSettings_three_way_merge emptyStore "u1" demoPatch
     (by intro s hs; simp [emptyStore] at hs)⟩

theorem jsClamp_bounds (lo hi x : Int) (h : lo ≤ hi) :
    lo ≤ jsClamp lo hi x ∧ jsClamp lo hi x ≤ hi := by
  unfold jsClamp
  constructor
  · exact le_max_left lo _
  · exact max_le h (min_le_left hi x)

theorem alphaSample_bounds (s r : Rat) (hs : sinIv s) (hr : unitIv r) :
    -100 ≤ alphaSample s r ∧ alphaSample s r ≤ 100 := by
  obtain ⟨hs1, hs2⟩ := hs
  obtain ⟨hr1, hr2⟩ := hr
  unfold alphaSample
  constructor <;> nlinarith

theorem betaSample_bounds (s r : Rat) (hs : sinIv s) (hr : unitIv r) :
    -100 ≤ betaSample s r ∧ betaSample s r ≤ 100 := by
  obtain ⟨hs1, hs2⟩ := hs
  obtain ⟨hr1, hr2⟩ := hr
  unfold betaSample
  constructor <;> nlinarith

/-- The declared ranges of the claim: each scalar within its min and max, and
every sample held in the two waveform buffers within -100 and 100. -/
def InRanges (s : SimState) : Prop :=
  (60 ≤ s.metrics.heartRate ∧ s.metrics.heartRate ≤ 100) ∧
  (0 ≤ s.metrics.stressLevel ∧ s.metrics.stressLevel ≤ 100) ∧
  (0 ≤ s.metrics.sleepQuality ∧ s.metrics.sleepQuality ≤ 100) ∧
  (0 ≤ s.metrics.neuralActivity ∧ s.metrics.neuralActivity ≤ 100) ∧
  (∀ x ∈ s.eeg.alphaWaves, -100 ≤ x ∧ x ≤ 100) ∧
  (∀ x ∈ s.eeg.betaWaves, -100 ≤ x ∧ x ≤ 100)

theorem inRanges_tick (s : SimState) (d : TickDraws) (hs : InRanges s)
    (hd : ValidDraws d) : InRanges (tickSim s d) := by
  obtain ⟨_, _, _, _, ha, hb⟩ := hs
  obtain ⟨_, _, _, _, _, hsinA, hrA, hsinB, hrB⟩ := hd
  refine ⟨?_, ?_, ?_, ?_, ?_, ?_⟩
  · exact jsClamp_bounds 60 100 _ (by norm_num)
  · exact jsClamp_bounds 0 100 _ (by norm_num)
  · exact jsClamp_bounds 0 100 _ (by norm_num)
  · exact jsClamp_bounds 0 100 _ (by norm_num)
  · intro x hx
    simp only [tickSim, tickEEG, List.mem_append, List.mem_singleton] at hx
    rcases hx with hx | hx
    · exact ha x (List.mem_of_mem_drop hx)
    · exact hx ▸ alphaSample_bounds _ _ hsinA hrA
  · intro x hx
    simp only [tickSim, tickEEG, List.mem_append, List.mem_singleton] at hx
    rcases hx with hx | hx
    · exact hb x (List.mem_of_mem_drop hx)
    · exact hx ▸ betaSample_bounds _ _ hsinB hrB

theorem inRanges_initialSim (alphaInit betaInit : List InitDraw)
    (ha : ∀ d ∈ alphaInit, ValidInitDraw d)
    (hb : ∀ d ∈ betaInit, ValidInitDraw d) :
    InRanges (initialSim alphaInit betaInit) := by
  refine ⟨?_, ?_, ?_, ?_, ?_, ?_⟩
  · exact ⟨by norm_num [initialSim, initialMetrics],
      by norm_num [initialSim, initialMetrics]⟩
  · exact ⟨by norm_num [initialSim, initialMetrics],
      by norm_num [initialSim, initialMetrics]⟩
  · exact ⟨by norm_num [initialSim, initialMetrics],
      by norm_num [initialSim, initialMetrics]⟩
  · exact ⟨by norm_num [initialSim, initialMetrics],
      by norm_num [initialSim, initialMetrics]⟩
  · intro x hx
    simp only [initialSim, List.mem_map] at hx
    obtain ⟨d, hd, rfl⟩ := hx
    exact alphaSample_bounds _ _ (ha d hd).1 (ha d hd).2
  · intro x hx
    simp only [initialSim, List.mem_map] at hx
    obtain ⟨d, hd, rfl⟩ := hx
    exact betaSample_bounds _ _ (hb d hd).1 (hb d hd).2

/-- C3: for every number of ticks n of the signal generator, starting from
the useState initial snapshot, each scalar metric after n ticks lies within
its declared range (heartRate within 60 and 100; stressLevel, sleepQuality
and neuralActivity within 0 and 100) and every sample of the two sliding
waveform buffers lies within -100 and 100; the clamp is reapplied every tick
so the bound holds for an arbitrary, unbounded number of ticks. -/
theorem bounded_walk (alphaInit betaInit : List InitDraw)
    (draws : Nat → TickDraws) (n : Nat)
    (ha : ∀ d ∈ alphaInit, ValidInitDraw d)
    (hb : ∀ d ∈ betaInit, ValidInitDraw d)
    (hd : ∀ i, ValidDraws (draws i)) :
    InRanges (runSim (initialSim alphaInit betaInit) draws n) := by
  induction n with
  | zero => exact inRanges_initialSim alphaInit betaInit ha hb
  | succ n ih => exact inRanges_tick _ _ ih (hd n)

/-- Witness for C3: three ticks of all-zero draws from a two-sample buffer
pair. -/
theorem bounded_walk_witness :
    (∀ d ∈ List.replicate 2 ({} : InitDraw), ValidInitDraw d) ∧
    (∀ i : Nat, ValidDraws ((fun _ => ({} : TickDraws)) i)) ∧
    InRanges (runSim
      (initialSim (List.replicate 2 {}) (List.replicate 2 {}))
      (fun _ => {}) 3) :=
  ⟨by decide, fun _ => (by decide : ValidDraws ({} : TickDraws)),
   bounded_walk (List.replicate 2 {}) (List.replicate 2 {}) (fun _ => {}) 3
     (by decide) (by decide)
     (fun _ => (by decide : ValidDraws ({} : TickDraws)))⟩

def envUnconfigured : Env := {}

def demoToken : Token :=
  { payload := { userId := "u1", username := "alice" },
    signedWith := "secret", exp := jwtExpiresInSeconds }

/-- C4 counterexample: with neither JWT_SECRET nor DATABASE_URL configured,
module loading still succeeds (the process comes up), and the absence is
surfaced per-request: requireAuth answers 401 for a presented token and the
export handler answers 500.  This refutes the claim that the process refuses
to start and that the absence is never surfaced as a per-request error. -/
theorem startup_failfast_counterexample :
    moduleStartup envUnconfigured = Except.ok () ∧
    requireAuth envUnconfigured { bearerToken := some demoToken } 0 =
      AuthResult.unauthorized "Invalid or expired token" ∧
    exportHandlerServerless envUnconfigured emptyStore "u1" =
      ApiResponse.err 500 "Failed to export data" :=
  ⟨rfl, rfl, rfl⟩

/-- C4 amended: a missing JWT_SECRET or DATABASE_URL is not detected at
startup; it is detected lazily at first use and surfaced as a per-request
error: module startup succeeds, verifyToken catches the configuration throw
and reports invalid (so requireAuth answers 401), generateToken propagates
the throw, and the db-backed export handler catches the getDb throw and
answers 500. -/
theorem missing_config_surfaces_per_request (env : Env) (tok : Token)
    (p : JWTPayload) (now : Nat) (st : Store) (uid : String) :
    (env.jwtSecret = none →
      moduleStartup env = Except.ok () ∧
      verifyToken env tok now = none ∧
      requireAuth env { bearerToken := some tok } now =
        AuthResult.unauthorized "Invalid or expired token" ∧
      generateToken env p now = Except.error "JWT_SECRET environment variable is not set. This is required for secure authentication.") ∧
    (env.databaseUrl = none →
      moduleStartup env = Except.ok () ∧
      exportHandlerServerless env st uid =
        ApiResponse.err 500 "Failed to export data") := by
  constructor
  · intro h
    refine ⟨rfl, ?_, ?_, ?_⟩
    · simp [verifyToken, getJWTSecret, h]
    · simp [requireAuth, getAuthToken, verifyToken, getJWTSecret, h]
    · simp [generateToken, getJWTSecret, h]
  · intro h
    refine ⟨rfl, ?_⟩
    simp [exportHandlerServerless, getDb, h]

/-- Witness for the amended C4 at the unconfigured environment. -/
theorem missing_config_surfaces_per_request_witness :
    (envUnconfigured.jwtSecret = none ∧
      verifyToken envUnconfigured demoToken 0 = none) ∧
    (envUnconfigured.databaseUrl = none ∧
      exportHandlerServerless envUnconfigured emptyStore "u1" =
        ApiResponse.err 500 "Failed to export data") :=
  ⟨⟨rfl, ((missing_config_surfaces_per_request envUnconfigured demoToken
      { userId := "u1", username := "alice" } 0 emptyStore "u1").1 rfl).2.1⟩,
   ⟨rfl, ((missing_config_surfaces_per_request envUnconfigured demoToken
      { userId := "u1", username := "alice" } 0 emptyStore "u1").2 rfl).2⟩⟩

/-- C5 counterexample: the legacy Express export route, on a user with zero
stored metric samples, answers 200 with an empty body (the header of the
empty record set is empty and there are no rows), not an explicit no-data
message; this refutes the claim for the export operation of routes.ts. -/
theorem export_emptiness_counterexample :
    exportRouteExpress emptyStore "u1" = ApiResponse.ok 200 "" ∧
    "" ≠ "No data available" :=
  ⟨rfl, by decide⟩

/-- C5 amended: on a user with zero stored metric samples both exports
answer 200 without crashing, but only the serverless export handler emits
the explicit no-data body; the legacy Express export route emits an empty
body instead. -/
theorem export_emptiness_amended (env : Env) (url : String) (store : Store)
    (uid : String) (henv : env.databaseUrl = some url)
    (hempty : store.healthMetrics.filter (fun m => m.userId = some uid) = []) :
    exportHandlerServerless env store uid =
      ApiResponse.ok 200 "No data available" ∧
    exportRouteExpress store uid = ApiResponse.ok 200 "" := by
  constructor
  · have h1 : getDb env = Except.ok () := by simp [getDb, henv]
    unfold exportHandlerServerless exportMetricsServerless
    rw [h1, hempty]
    rfl
  · unfold exportRouteExpress exportMetricsRoute getHealthMetrics
    rw [hempty]
    rfl

/-- Witness for the amended C5 on the empty store. -/
theorem export_emptiness_amended_witness :
    ({ databaseUrl := some "postgres-url" : Env }.databaseUrl =
        some "postgres-url") ∧
    (emptyStore.healthMetrics.filter (fun m => m.userId = some "u1") = []) ∧
    (exportHandlerServerless { databaseUrl := some "postgres-url" }
        emptyStore "u1" = ApiResponse.ok 200 "No data available" ∧
      exportRouteExpress emptyStore "u1" = ApiResponse.ok 200 "") :=
  ⟨rfl, rfl,
   export_emptiness_amended { databaseUrl := some "postgres-url" }
     "postgres-url" emptyStore "u1" rfl rfl⟩

/-- C6: token round-trip with the configured secret: issuing a token for a
payload and verifying it before the 7-day expiry yields the same payload;
verifying at or after the expiry yields invalid; and a token signed with a
different secret yields the same invalid outcome, so expiry and bad
signature are indistinguishable to the caller. -/
theorem token_roundtrip (env : Env) (secret : String) (p : JWTPayload)
    (t tv : Nat) (henv : env.jwtSecret = some secret) :
    generateToken env p t = Except.ok (jwtSign p secret t) ∧
    (tv < t + jwtExpiresInSeconds →
      verifyToken env (jwtSign p secret t) tv = some p) ∧
    (t + jwtExpiresInSeconds ≤ tv →
      verifyToken env (jwtSign p secret t) tv = none) ∧
    (∀ tok : Token, tok.signedWith ≠ secret →
      verifyToken env tok tv = none) := by
  refine ⟨?_, ?_, ?_, ?_⟩
  · simp [generateToken, getJWTSecret, henv]
  · intro hvalid
    have hexp : ¬ (t + jwtExpiresInSeconds ≤ tv) := by omega
    simp [verifyToken, getJWTSecret, henv, jwtVerify, jwtSign, hexp]
  · intro hexpired
    simp [verifyToken, getJWTSecret, henv, jwtVerify, jwtSign, hexpired]
  · intro tok hsig
    simp [verifyToken, getJWTSecret, henv, jwtVerify, hsig]

def envWithSecret : Env := { jwtSecret := some "s3cret" }

/-- Witness for C6 with a concrete secret, payload and times. -/
theorem token_roundtrip_witness :
    envWithSecret.jwtSecret = some "s3cret" ∧
    (generateToken envWithSecret { userId := "u1", username := "alice" } 10 =
      Except.ok (jwtSign { userId := "u1", username := "alice" } "s3cret" 10) ∧
    (11 < 10 + jwtExpiresInSeconds →
      verifyToken envWithSecret
        (jwtSign { userId := "u1", username := "alice" } "s3cret" 10) 11 =
        some { userId := "u1", username := "alice" }) ∧
    (10 + jwtExpiresInSeconds ≤ 11 →
      verifyToken envWithSecret
        (jwtSign { userId := "u1", username := "alice" } "s3cret" 10) 11 =
        none) ∧
    (∀ tok : Token, tok.signedWith ≠ "s3cret" →
      verifyToken envWithSecret tok 11 = none)) :=
  ⟨rfl, token_roundtrip envWithSecret "s3cret"
    { userId := "u1", username := "alice" } 10 11 rfl⟩

theorem sliceLast_subset (l : List α) (n : Nat) : sliceLast l n ⊆ l := by
  unfold sliceLast
  split
  · exact List.Subset.refl l
  · exact List.drop_subset _ _

/-- C7: cross-user isolation: every record returned by a user-scoped read
(the three list operations, the settings lookup, and the record set the
export draws from) carries the queried userId, so records created for a
distinct user never appear in a read scoped to another. -/
theorem user_scoped_reads_isolated (st : Store) (uid : String) (lim : Nat) :
    (∀ r ∈ getHealthMetrics st uid lim, r.userId = some uid) ∧
    (∀ r ∈ getDreamAnalyses st uid lim, r.userId = some uid) ∧
    (∀ r ∈ getAiChats st uid lim, r.userId = some uid) ∧
    (∀ s ∈ getUserSettings st uid, s.userId = some uid) ∧
    (∀ r ∈ exportMetricsServerless st uid, r.userId = some uid) := by
  refine ⟨?_, ?_, ?_, ?_, ?_⟩
  · intro r hr
    have h1 : r ∈ sortBy hmDesc (st.healthMetrics.filter
        (fun m => m.userId = some uid)) := List.take_subset _ _ hr
    have h2 := (mem_sortBy _ _ _).1 h1
    exact of_decide_eq_true (List.mem_filter.1 h2).2
  · intro r hr
    have h1 : r ∈ sortBy daDesc (st.dreamAnalyses.filter
        (fun a => a.userId = some uid)) := List.take_subset _ _ hr
    have h2 := (mem_sortBy _ _ _).1 h1
    exact of_decide_eq_true (List.mem_filter.1 h2).2
  · intro r hr
    have h1 : r ∈ sortBy chatAsc (st.aiChats.filter
        (fun c => c.userId = some uid)) := sliceLast_subset _ _ hr
    have h2 := (mem_sortBy _ _ _).1 h1
    exact of_decide_eq_true (List.mem_filter.1 h2).2
  · intro s hs
    have hs' : st.userSettings.find?
        (fun s => s.userId = some uid) = some s := hs
    have h3 := List.find?_some hs'
    simpa using h3
  · intro r hr
    have h2 := (mem_sortBy _ _ _).1 hr
    exact of_decide_eq_true (List.mem_filter.1 h2).2

def demoIsolationStore : Store :=
  (createHealthMetrics
    (createHealthMetrics emptyStore
      { userId := some "alice", heartRate := 70, stressLevel := 30,
        sleepQuality := 80, neuralActivity := 90 }).1
    { userId := some "bob", heartRate := 75, stressLevel := 40,
      sleepQuality := 70, neuralActivity := 85 }).1

def demoAliceRecord : HealthMetrics :=
  { id := 0, userId := some "alice", heartRate := 70, stressLevel := 30,
    sleepQuality := 80, neuralActivity := 90, dailySteps := none,
    sleepDuration := none, timestamp := 0 }

/-- Witness for C7: in a store holding one record of alice and one of bob,
the record returned by the read scoped to alice carries the alice userId. -/
theorem user_scoped_reads_isolated_witness :
    demoAliceRecord ∈ getHealthMetrics demoIsolationStore "alice" 50 ∧
    demoAliceRecord.userId = some "alice" :=
  ⟨by decide, (user_scoped_reads_isolated demoIsolationStore "alice" 50).1
    demoAliceRecord (by decide)⟩

def envConfigured : Env :=
  { jwtSecret := some "s3cret", databaseUrl := some "postgres-url" }

/-- C8 counterexample: on collaborator failure the send-chat route does
answer 500, but the store is not unchanged: the user message inserted before
the collaborator call is persisted, so the claim of no partial-success
persistence on this route is refuted. -/
theorem upstream_failure_counterexample :
    (aiChatPost envConfigured emptyStore (some "hello") (some "u1")
        AiOutcome.failure).2 =
      ApiResponse.err 500 "Failed to process chat message" ∧
    (aiChatPost envConfigured emptyStore (some "hello") (some "u1")
        AiOutcome.failure).1.aiChats =
      [{ id := 0, userId := some "u1", message := "hello", isUser := true,
         timestamp := 0 }] ∧
    emptyStore.aiChats = [] :=
  ⟨rfl, rfl, rfl⟩

/-- C8 amended: when the collaborator fails, both write routes surface a
500; the create-dream route persists nothing (collaborator first, insert
after), but the send-chat route has already persisted the user message and
leaves it stored, so the store gains exactly that one record. -/
theorem upstream_failure_persistence (env : Env) (url : String)
    (store : Store) (msg uid text : String)
    (hurl : env.databaseUrl = some url) (hmsg : msg ≠ "") (huid : uid ≠ "")
    (htext : text ≠ "") :
    (aiChatPost env store (some msg) (some uid) AiOutcome.failure).2 =
      ApiResponse.err 500 "Failed to process chat message" ∧
    (aiChatPost env store (some msg) (some uid) AiOutcome.failure).1 =
      (createAiChat store
        { userId := some uid, message := msg, isUser := true }).1 ∧
    (dreamPost env store (some text) (some uid) DreamAiOutcome.failure).2 =
      ApiResponse.err 500 "Failed to analyze dream" ∧
    (dreamPost env store (some text) (some uid)
        DreamAiOutcome.failure).1 = store := by
  have hm : orNullString (some msg) = some msg := by
    simp [orNullString, hmsg]
  have hu : orNullString (some uid) = some uid := by
    simp [orNullString, huid]
  have ht : orNullString (some text) = some text := by
    simp [orNullString, htext]
  have hdb : getDb env = Except.ok () := by simp [getDb, hurl]
  refine ⟨?_, ?_, ?_, ?_⟩ <;>
    simp [aiChatPost, dreamPost, hm, hu, ht, hdb]

/-- Witness for the amended C8 at concrete inputs on the empty store. -/
theorem upstream_failure_persistence_witness :
    envConfigured.databaseUrl = some "postgres-url" ∧
    ("hello" ≠ "" ∧ "u1" ≠ "" ∧ "a dream" ≠ "") ∧
    ((aiChatPost envConfigured emptyStore (some "hello") (some "u1")
        AiOutcome.failure).1 =
      (createAiChat emptyStore
        { userId := some "u1", message := "hello", isUser := true }).1 ∧
    (dreamPost envConfigured emptyStore (some "a dream") (some "u1")
        DreamAiOutcome.failure).1 = emptyStore) :=
  ⟨rfl, ⟨by decide, by decide, by decide⟩,
   ⟨(upstream_failure_persistence envConfigured "postgres-url" emptyStore
       "hello" "u1" "a dream" rfl (by decide) (by decide) (by decide)).2.1,
    (upstream_failure_persistence envConfigured "postgres-url" emptyStore
       "hello" "u1" "a dream" rfl (by decide) (by decide)
       (by decide)).2.2.2⟩⟩

def demoMetricInsert : InsertHealthMetrics :=
  { userId := some "u1", heartRate := 70, stressLevel := 30,
    sleepQuality := 80, neuralActivity := 90 }

def store51 : Store :=
  (List.replicate 51 demoMetricInsert).foldl
    (fun st i => (createHealthMetrics st i).1) emptyStore

/-- C9 counterexample: after 51 inserts for one user, the serverless export
handler emits 51 data rows, because its query carries no limit clause; this
refutes the claim that the export fetches at most the 50 most recent
samples. -/
theorem export_limit_counterexample :
    ((exportMetricsServerless store51 "u1").map csvRow).length = 51 ∧
    ¬ ((exportMetricsServerless store51 "u1").map csvRow).length ≤ 50 := by
  have h : (store51.healthMetrics.filter
      (fun m => m.userId = some "u1")).length = 51 := by decide
  have h2 : ((exportMetricsServerless store51 "u1").map csvRow).length =
      51 := by
    unfold exportMetricsServerless
    rw [List.length_map, length_sortBy, h]
  exact ⟨h2, by omega⟩

theorem pairwise_hmDesc_sortBy (l : List HealthMetrics) :
    (sortBy hmDesc l).Pairwise (fun a b => b.timestamp ≤ a.timestamp) := by
  have hp := pairwise_sortBy hmDesc
    (fun a b c hab hbc => decide_eq_true
      (Nat.le_trans (of_decide_eq_true hbc) (of_decide_eq_true hab)))
    (fun a b => by
      rcases Nat.le_total b.timestamp a.timestamp with h | h
      · exact Or.inl (decide_eq_true h)
      · exact Or.inr (decide_eq_true h)) l
  exact hp.imp (fun hab => of_decide_eq_true hab)

/-- C9 amended: the legacy Express export route fetches at most the 50 most
recent samples of the user (the first 50 of the descending order), while the
serverless export handler fetches all of the samples of the user with no
limit; both record lists are most recent first (descending by timestamp);
and whenever records exist, each export emits the body whose first line is
the header built from the fixed seven-name field set of the mapped record
literal (Object.keys of the first record), followed by one delimited line
per fetched record in the same field order. -/
theorem export_fetch_semantics (env : Env) (url : String) (store : Store)
    (uid : String) :
    exportMetricsRoute store uid =
      (sortBy hmDesc (store.healthMetrics.filter
        (fun m => m.userId = some uid))).take 50 ∧
    (exportMetricsRoute store uid).length ≤ 50 ∧
    (exportMetricsRoute store uid).Pairwise
      (fun a b => b.timestamp ≤ a.timestamp) ∧
    (exportMetricsServerless store uid).length =
      (store.healthMetrics.filter (fun m => m.userId = some uid)).length ∧
    (exportMetricsServerless store uid).Pairwise
      (fun a b => b.timestamp ≤ a.timestamp) ∧
    (env.databaseUrl = some url → exportMetricsServerless store uid ≠ [] →
      exportHandlerServerless env store uid = ApiResponse.ok 200
        (String.intercalate "\n" (String.intercalate "," csvFieldNames ::
          (exportMetricsServerless store uid).map csvRow))) ∧
    (exportMetricsRoute store uid ≠ [] →
      exportRouteExpress store uid = ApiResponse.ok 200
        (String.intercalate "\n" (String.intercalate "," csvFieldNames ::
          (exportMetricsRoute store uid).map csvRow))) := by
  refine ⟨rfl, ?_, ?_, ?_, ?_, ?_, ?_⟩
  · unfold exportMetricsRoute getHealthMetrics
    rw [List.length_take]
    exact min_le_left _ _
  · exact List.Pairwise.sublist (List.take_sublist _ _)
      (pairwise_hmDesc_sortBy _)
  · unfold exportMetricsServerless
    exact length_sortBy _ _
  · exact pairwise_hmDesc_sortBy _
  · intro henv hne
    have h1 : getDb env = Except.ok () := by simp [getDb, henv]
    have h2 : ¬ (exportMetricsServerless store uid).length = 0 := by
      cases h : exportMetricsServerless store uid with
      | nil => exact absurd h hne
      | cons a l => simp
    simp only [exportHandlerServerless, h1, if_neg h2]
  · intro hne
    have h2 : (exportMetricsRoute store uid).isEmpty = false := by
      cases h : exportMetricsRoute store uid with
      | nil => exact absurd h hne
      | cons a l => rfl
    simp only [exportRouteExpress, h2, Bool.false_eq_true, if_false]

def storeOne : Store := (createHealthMetrics emptyStore demoMetricInsert).1

/-- Witness for the amended C9 on a one-record store: both exports emit the
seven-name header line followed by the row lines. -/
theorem export_fetch_semantics_witness :
    (envConfigured.databaseUrl = some "postgres-url" ∧
     exportMetricsServerless storeOne "u1" ≠ [] ∧
     exportMetricsRoute storeOne "u1" ≠ []) ∧
    (exportHandlerServerless envConfigured storeOne "u1" =
        ApiResponse.ok 200
          (String.intercalate "\n" (String.intercalate "," csvFieldNames ::
            (exportMetricsServerless storeOne "u1").map csvRow)) ∧
     exportRouteExpress storeOne "u1" = ApiResponse.ok 200
        (String.intercalate "\n" (String.intercalate "," csvFieldNames ::
          (exportMetricsRoute storeOne "u1").map csvRow))) :=
  ⟨⟨rfl, by decide, by decide⟩,
   ⟨(export_fetch_semantics envConfigured "postgres-url" storeOne
       "u1").2.2.2.2.2.1 rfl (by decide),
    (export_fetch_semantics envConfigured "postgres-url" storeOne
       "u1").2.2.2.2.2.2 (by decide)⟩⟩

/-- C10: createHealthMetrics coerces every falsy optional-field value to
null, not only absent ones: an insert with dailySteps 0, sleepDuration 0 or
an empty-string userId stores null in that field. -/
theorem createHealthMetrics_falsy_to_null (st : Store)
    (ins : InsertHealthMetrics) :
    (ins.dailySteps = some 0 →
      (createHealthMetrics st ins).2.dailySteps = none) ∧
    (ins.sleepDuration = some 0 →
      (createHealthMetrics st ins).2.sleepDuration = none) ∧
    (ins.userId = some "" →
      (createHealthMetrics st ins).2.userId = none) := by
  refine ⟨?_, ?_, ?_⟩ <;> intro h <;>
    simp [createHealthMetrics, orNullInt, orNullRat, orNullString, h]

def demoFalsyInsert : InsertHealthMetrics :=
  { userId := some "", heartRate := 70, stressLevel := 30,
    sleepQuality := 80, neuralActivity := 90, dailySteps := some 0,
    sleepDuration := some 0 }

/-- Witness for C10 at an insert carrying the three falsy values. -/
theorem createHealthMetrics_falsy_to_null_witness :
    demoFalsyInsert.dailySteps = some 0 ∧
    demoFalsyInsert.sleepDuration = some 0 ∧
    demoFalsyInsert.userId = some "" ∧
    (createHealthMetrics emptyStore demoFalsyInsert).2.dailySteps = none ∧
    (createHealthMetrics emptyStore demoFalsyInsert).2.sleepDuration =
      none ∧
    (createHealthMetrics emptyStore demoFalsyInsert).2.userId = none :=
  ⟨rfl, rfl, rfl,
   (createHealthMetrics_falsy_to_null emptyStore demoFalsyInsert).1 rfl,
   (createHealthMetrics_falsy_to_null emptyStore demoFalsyInsert).2.1 rfl,
   (createHealthMetrics_falsy_to_null emptyStore demoFalsyInsert).2.2 rfl⟩

end DreamAnalysis
